import Mathlib

/-!
Shallow embedding of the frame-processing engine in
`app/src/main/cpp/opencv_processor.cpp` (class `OpenCVProcessor`) and of the
size-validating entry point
`Java_com_edgedetection_viewer_FrameProcessor_nativeProcessFrame` in
`app/src/main/cpp/jni_bridge.cpp`.

Conventions of the embedding:
- byte buffers are `List Nat` (each entry a byte value);
- a C pointer argument that may be null is `Option (List Nat)`;
- C `int` is `Int`, with `Int.tdiv` for C integer division (truncation);
- C `double` threshold values are `ℚ` (the stored values 50.0, 150.0 and all
  comparisons against integer gradient magnitudes are exact in ℚ);
- the OpenCV library routines called by the engine (`cv::cvtColor`,
  `cv::GaussianBlur`, `cv::Canny`) are modelled as executable pixel-level
  functions below, using OpenCV's documented fixed-point BT.601 coefficients,
  REFLECT_101 borders, the 3×3 Sobel operator and L1 gradient magnitude.
-/

/-- Clamp an integer to the byte range 0..255, as OpenCV's `saturate_cast<uchar>`. -/
def clampByte (x : Int) : Nat := (max 0 (min 255 x)).toNat

/-- Model of `cv::cvtColor(yuvMat, out, COLOR_YUV2RGBA_NV21)` on a `w`×`h` frame:
NV21 planar input (Y plane, then interleaved V/U plane) to packed RGBA, using
OpenCV's fixed-point ITU-R BT.601 coefficients (shift 20), alpha = 255. -/
def cvtColorYuv2RgbaNV21 (w h : Nat) (yuv : List Nat) : List Nat :=
  (List.range (h * w)).flatMap (fun i =>
    let r := i / w
    let c := i % w
    let y : Int := yuv.getD (r * w + c) 0
    let v : Int := yuv.getD (w * h + (r / 2) * w + 2 * (c / 2)) 0
    let u : Int := yuv.getD (w * h + (r / 2) * w + 2 * (c / 2) + 1) 0
    let yy : Int := 1220542 * max 0 (y - 16)
    let rr := clampByte (Int.fdiv (yy + 1673527 * (v - 128) + 524288) 1048576)
    let gg := clampByte (Int.fdiv (yy - 852492 * (v - 128) - 409993 * (u - 128) + 524288) 1048576)
    let bb := clampByte (Int.fdiv (yy + 2116026 * (u - 128) + 524288) 1048576)
    [rr, gg, bb, 255])

/-- Model of `cv::cvtColor(input, out, COLOR_RGBA2GRAY)`: per-pixel luma
`(R*4899 + G*9617 + B*1868 + 8192) >> 14`, OpenCV's fixed-point BT.601 weights. -/
def cvtColorRgba2Gray (rgba : List Nat) : List Nat :=
  (List.range (rgba.length / 4)).map (fun i =>
    (rgba.getD (4 * i) 0 * 4899 + rgba.getD (4 * i + 1) 0 * 9617 +
      rgba.getD (4 * i + 2) 0 * 1868 + 8192) / 16384)

/-- Model of `cv::cvtColor(input, out, COLOR_GRAY2RGBA)`: each intensity `g`
becomes the packed pixel `[g, g, g, 255]` (alpha opaque). -/
def cvtColorGray2Rgba (gray : List Nat) : List Nat :=
  gray.flatMap (fun g => [g, g, g, 255])

/-- OpenCV's default `BORDER_REFLECT_101` index folding for a dimension of size `n`. -/
def reflect101 (n : Nat) (i : Int) : Nat :=
  if n ≤ 1 then 0
  else
    let m := (i.emod (2 * ((n : Int) - 1))).toNat
    if m < n then m else 2 * (n - 1) - m

/-- Read a pixel of a single-channel `w`×`h` image with REFLECT_101 borders. -/
def pixAt (w h : Nat) (img : List Nat) (r c : Int) : Nat :=
  img.getD (reflect101 h r * w + reflect101 w c) 0

/-- Discretized normalized Gaussian kernel for size 5, σ = 1.5, in fixed point
scaled by 2^20 (the five weights sum to exactly 2^20). -/
def gaussKernel5 : List Nat := [125911, 245242, 306270, 245242, 125911]

/-- Model of `cv::GaussianBlur(gray, gray, Size(5,5), 1.5)`: the separable 5-tap
Gaussian applied as one 25-tap pass in fixed point (product weights scaled by
2^40, rounded), REFLECT_101 borders. -/
def gaussianBlur5x5 (w h : Nat) (img : List Nat) : List Nat :=
  (List.range (h * w)).map (fun i =>
    let r : Int := (i / w : Nat)
    let c : Int := (i % w : Nat)
    let s := (List.range 5).foldl (fun acc dr =>
      acc + (List.range 5).foldl (fun acc2 dc =>
        acc2 + gaussKernel5.getD dr 0 * gaussKernel5.getD dc 0 *
          pixAt w h img (r + (dr : Int) - 2) (c + (dc : Int) - 2)) 0) 0
    (s + 549755813888) / 1099511627776)

/-- Horizontal 3×3 Sobel derivative at `(r, c)`, REFLECT_101 borders. -/
def sobelGx (w h : Nat) (img : List Nat) (r c : Int) : Int :=
  ((pixAt w h img (r - 1) (c + 1) : Int) + 2 * pixAt w h img r (c + 1) +
      pixAt w h img (r + 1) (c + 1)) -
    ((pixAt w h img (r - 1) (c - 1) : Int) + 2 * pixAt w h img r (c - 1) +
      pixAt w h img (r + 1) (c - 1))

/-- Vertical 3×3 Sobel derivative at `(r, c)`, REFLECT_101 borders. -/
def sobelGy (w h : Nat) (img : List Nat) (r c : Int) : Int :=
  ((pixAt w h img (r + 1) (c - 1) : Int) + 2 * pixAt w h img (r + 1) c +
      pixAt w h img (r + 1) (c + 1)) -
    ((pixAt w h img (r - 1) (c - 1) : Int) + 2 * pixAt w h img (r - 1) c +
      pixAt w h img (r - 1) (c + 1))

/-- L1 gradient magnitude `|gx| + |gy|` (OpenCV's default for `cv::Canny`). -/
def cannyMag (w h : Nat) (img : List Nat) (i : Nat) : Nat :=
  (sobelGx w h img (i / w : Nat) (i % w : Nat)).natAbs +
    (sobelGy w h img (i / w : Nat) (i % w : Nat)).natAbs

/-- Magnitude lookup for non-maximum suppression; out-of-image positions read 0. -/
def magAt (w h : Nat) (mag : List Nat) (r c : Int) : Nat :=
  if 0 ≤ r ∧ r < (h : Int) ∧ 0 ≤ c ∧ c < (w : Int) then mag.getD (r.toNat * w + c.toNat) 0
  else 0

/-- Non-maximum suppression plus the low threshold: pixel `i` survives when its
L1 magnitude exceeds `low` and is a directional local maximum, with OpenCV's
sector quantization (`tan 22.5° ≈ 13573/2^15`). -/
def cannyCandidate (w h : Nat) (low : ℚ) (img mag : List Nat) (i : Nat) : Bool :=
  let r : Int := (i / w : Nat)
  let c : Int := (i % w : Nat)
  let gx := sobelGx w h img r c
  let gy := sobelGy w h img r c
  let m := mag.getD i 0
  if (m : ℚ) > low then
    if gy.natAbs * 32768 < gx.natAbs * 13573 then
      decide (m > magAt w h mag r (c - 1) ∧ m ≥ magAt w h mag r (c + 1))
    else if gy.natAbs * 32768 > gx.natAbs * 13573 + gx.natAbs * 65536 then
      decide (m > magAt w h mag (r - 1) c ∧ m ≥ magAt w h mag (r + 1) c)
    else
      let s : Int := if gx * gy < 0 then -1 else 1
      decide (m > magAt w h mag (r - 1) (c - s) ∧ m > magAt w h mag (r + 1) (c + s))
  else false

/-- One round of hysteresis growth: keep the current edge set and add every
surviving candidate 8-connected to it. -/
def hysteresisStep (w h : Nat) (cand : Nat → Bool) (cur : List Bool) : List Bool :=
  (List.range (h * w)).map (fun i =>
    cur.getD i false ||
      (cand i &&
        [(-1, -1), (-1, 0), (-1, 1), (0, -1), (0, 1), (1, -1), (1, 0), (1, 1)].any
          (fun d =>
            let r : Int := (i / w : Nat) + d.1
            let c : Int := (i % w : Nat) + d.2
            decide (0 ≤ r ∧ r < (h : Int) ∧ 0 ≤ c ∧ c < (w : Int)) &&
              cur.getD (r.toNat * w + c.toNat) false)))

/-- Model of `cv::Canny(gray, edges, low, high, 3)`: 3×3 Sobel gradients, L1
magnitude, non-maximum suppression, double-threshold hysteresis (strong above
`high`, weak above `low` kept when 8-connected to a strong pixel); output is a
binary map with edge pixels 255 and the rest 0. -/
def cannyDetect (w h : Nat) (low high : ℚ) (img : List Nat) : List Nat :=
  let mag := (List.range (h * w)).map (cannyMag w h img)
  let cand := cannyCandidate w h low img mag
  let strong := (List.range (h * w)).map (fun i => cand i && decide ((mag.getD i 0 : ℚ) > high))
  let final := (hysteresisStep w h cand)^[h * w] strong
  (List.range (h * w)).map (fun i => if final.getD i false then 255 else 0)

/-- Effect of `memcpy(dst, src, n)` on a destination buffer: the first `n` bytes
are replaced by the first `n` bytes of `src`, the rest of `dst` is unchanged. -/
def memcpyInto (dst src : List Nat) (n : Nat) : List Nat :=
  (List.range n).map (fun i => src.getD i 0) ++ dst.drop n

/-- State of the `OpenCVProcessor` class: scalar fields and the five reusable
`cv::Mat` buffers (the field named `initialized` in the source is `inited` here). -/
structure OpenCVProcessor where
  frameWidth : Int
  frameHeight : Int
  cannyLowThreshold : ℚ
  cannyHighThreshold : ℚ
  yuvMat : List Nat
  rgbaMat : List Nat
  grayMat : List Nat
  edgesMat : List Nat
  tempMat : List Nat
  inited : Bool
deriving Repr, DecidableEq

namespace OpenCVProcessor

/-- The `OpenCVProcessor()` constructor: zero dimensions, default thresholds
50.0 / 150.0, empty matrices, not yet usable. -/
def new : OpenCVProcessor :=
  { frameWidth := 0, frameHeight := 0, cannyLowThreshold := 50,
    cannyHighThreshold := 150, yuvMat := [], rgbaMat := [], grayMat := [],
    edgesMat := [], tempMat := [], inited := false }

/-- `OpenCVProcessor::init(width, height)`: reject non-positive dimensions
without touching state; otherwise store the dimensions, allocate the five
matrices (fresh allocation modelled as zero-filled) and mark the processor
usable. Returns the `bool` result with the post-state. -/
def init (p : OpenCVProcessor) (width height : Int) : Bool × OpenCVProcessor :=
  if width ≤ 0 ∨ height ≤ 0 then (false, p)
  else
    (true, { p with
      frameWidth := width, frameHeight := height,
      yuvMat := List.replicate ((height + Int.tdiv height 2) * width).toNat 0,
      rgbaMat := List.replicate (height * width * 4).toNat 0,
      grayMat := List.replicate (height * width).toNat 0,
      edgesMat := List.replicate (height * width).toNat 0,
      tempMat := List.replicate (height * width * 4).toNat 0,
      inited := true })

/-- `OpenCVProcessor::yuvToRgba`: `memcpy` the first `frameWidth*frameHeight*3/2`
input bytes into `yuvMat`, then convert NV21 to RGBA into `rgbaMat`. -/
def yuvToRgba (p : OpenCVProcessor) (yuvData : List Nat) : OpenCVProcessor :=
  let n := (Int.tdiv (p.frameWidth * p.frameHeight * 3) 2).toNat
  let copied := (List.range n).map (fun i => yuvData.getD i 0)
  { p with yuvMat := copied,
           rgbaMat := cvtColorYuv2RgbaNV21 p.frameWidth.toNat p.frameHeight.toNat copied }

/-- `OpenCVProcessor::applyGrayscale`: RGBA → gray into `grayMat`, then gray →
RGBA into the output matrix (`tempMat` at the call site). -/
def applyGrayscale (p : OpenCVProcessor) : OpenCVProcessor :=
  let g := cvtColorRgba2Gray p.rgbaMat
  { p with grayMat := g, tempMat := cvtColorGray2Rgba g }

/-- `OpenCVProcessor::applyCanny`: RGBA → gray into `grayMat`, 5×5 σ=1.5
Gaussian blur in place, Canny with the stored thresholds and aperture 3 into
`edgesMat`, then gray → RGBA into the output matrix (`tempMat` at the call site). -/
def applyCanny (p : OpenCVProcessor) : OpenCVProcessor :=
  let g := gaussianBlur5x5 p.frameWidth.toNat p.frameHeight.toNat
    (cvtColorRgba2Gray p.rgbaMat)
  let e := cannyDetect p.frameWidth.toNat p.frameHeight.toNat
    p.cannyLowThreshold p.cannyHighThreshold g
  { p with grayMat := g, edgesMat := e, tempMat := cvtColorGray2Rgba e }

/-- `OpenCVProcessor::processFrame(yuvData, yuvSize, outputRgba, mode)`:
fail while not initialized, fail on a null input or output pointer, otherwise
convert YUV→RGBA and dispatch on `mode` (0 raw, 1 grayscale, 2 Canny), copying
`frameWidth*frameHeight*4` bytes into the caller's output buffer; an unknown
mode fails after the conversion step. Returns the `bool` result, the post-state
and the (possibly rewritten) output buffer. `yuvSize` is accepted but unused,
as in the source. -/
def processFrame (p : OpenCVProcessor) (yuvData : Option (List Nat))
    (yuvSize : Nat) (outputRgba : Option (List Nat)) (mode : Int) :
    Bool × OpenCVProcessor × Option (List Nat) :=
  if p.inited = false then (false, p, outputRgba)
  else
    match yuvData, outputRgba with
    | some yuv, some out =>
      let p1 := p.yuvToRgba yuv
      let n4 := (p.frameWidth * p.frameHeight * 4).toNat
      if mode = 0 then (true, p1, some (memcpyInto out p1.rgbaMat n4))
      else if mode = 1 then
        let p2 := p1.applyGrayscale
        (true, p2, some (memcpyInto out p2.tempMat n4))
      else if mode = 2 then
        let p3 := p1.applyCanny
        (true, p3, some (memcpyInto out p3.tempMat n4))
      else (false, p1, some out)
    | _, _ => (false, p, outputRgba)

/-- `OpenCVProcessor::setCannyThresholds(low, high)`: store both values as
given, no validation. -/
def setCannyThresholds (p : OpenCVProcessor) (low high : ℚ) : OpenCVProcessor :=
  { p with cannyLowThreshold := low, cannyHighThreshold := high }

/-- `OpenCVProcessor::release()`: when the processor is marked usable, release
the five matrices and clear the flag; otherwise do nothing. -/
def release (p : OpenCVProcessor) : OpenCVProcessor :=
  if p.inited then
    { p with yuvMat := [], rgbaMat := [], grayMat := [], edgesMat := [],
             tempMat := [], inited := false }
  else p

end OpenCVProcessor

/-- The JNI entry point `nativeProcessFrame` in `jni_bridge.cpp`: fail when no
global processor exists; validate `inputSize ≥ width*height*3/2` and
`outputSize ≥ width*height*4` (C integer arithmetic), failing without calling
the processor; otherwise call `processFrame` passing the input length as
`yuvSize` and copy the processed output back. -/
def nativeProcessFrame (g : Option OpenCVProcessor) (input output : List Nat)
    (width height mode : Int) : Bool × Option OpenCVProcessor × List Nat :=
  match g with
  | none => (false, none, output)
  | some p =>
    let expectedInputSize := Int.tdiv (width * height * 3) 2
    let expectedOutputSize := width * height * 4
    if (input.length : Int) < expectedInputSize then (false, some p, output)
    else if (output.length : Int) < expectedOutputSize then (false, some p, output)
    else
      let r := p.processFrame (some input) input.length (some output) mode
      (r.1, some r.2.1, r.2.2.getD output)

namespace OpenCVProcessor

@[simp] theorem yuvToRgba_frameWidth (p : OpenCVProcessor) (y : List Nat) :
    (p.yuvToRgba y).frameWidth = p.frameWidth := rfl

@[simp] theorem yuvToRgba_frameHeight (p : OpenCVProcessor) (y : List Nat) :
    (p.yuvToRgba y).frameHeight = p.frameHeight := rfl

@[simp] theorem yuvToRgba_low (p : OpenCVProcessor) (y : List Nat) :
    (p.yuvToRgba y).cannyLowThreshold = p.cannyLowThreshold := rfl

@[simp] theorem yuvToRgba_high (p : OpenCVProcessor) (y : List Nat) :
    (p.yuvToRgba y).cannyHighThreshold = p.cannyHighThreshold := rfl

@[simp] theorem yuvToRgba_inited (p : OpenCVProcessor) (y : List Nat) :
    (p.yuvToRgba y).inited = p.inited := rfl

@[simp] theorem yuvToRgba_grayMat (p : OpenCVProcessor) (y : List Nat) :
    (p.yuvToRgba y).grayMat = p.grayMat := rfl

@[simp] theorem yuvToRgba_edgesMat (p : OpenCVProcessor) (y : List Nat) :
    (p.yuvToRgba y).edgesMat = p.edgesMat := rfl

@[simp] theorem yuvToRgba_tempMat (p : OpenCVProcessor) (y : List Nat) :
    (p.yuvToRgba y).tempMat = p.tempMat := rfl

theorem yuvToRgba_yuvMat (p : OpenCVProcessor) (y : List Nat) :
    (p.yuvToRgba y).yuvMat =
      (List.range (Int.tdiv (p.frameWidth * p.frameHeight * 3) 2).toNat).map
        (fun i => y.getD i 0) := rfl

theorem yuvToRgba_rgbaMat (p : OpenCVProcessor) (y : List Nat) :
    (p.yuvToRgba y).rgbaMat =
      cvtColorYuv2RgbaNV21 p.frameWidth.toNat p.frameHeight.toNat
        ((List.range (Int.tdiv (p.frameWidth * p.frameHeight * 3) 2).toNat).map
          (fun i => y.getD i 0)) := rfl

@[simp] theorem applyGrayscale_frameWidth (p : OpenCVProcessor) :
    p.applyGrayscale.frameWidth = p.frameWidth := rfl

@[simp] theorem applyGrayscale_frameHeight (p : OpenCVProcessor) :
    p.applyGrayscale.frameHeight = p.frameHeight := rfl

@[simp] theorem applyGrayscale_low (p : OpenCVProcessor) :
    p.applyGrayscale.cannyLowThreshold = p.cannyLowThreshold := rfl

@[simp] theorem applyGrayscale_high (p : OpenCVProcessor) :
    p.applyGrayscale.cannyHighThreshold = p.cannyHighThreshold := rfl

@[simp] theorem applyGrayscale_inited (p : OpenCVProcessor) :
    p.applyGrayscale.inited = p.inited := rfl

theorem applyGrayscale_tempMat (p : OpenCVProcessor) :
    p.applyGrayscale.tempMat = cvtColorGray2Rgba (cvtColorRgba2Gray p.rgbaMat) := rfl

@[simp] theorem applyCanny_frameWidth (p : OpenCVProcessor) :
    p.applyCanny.frameWidth = p.frameWidth := rfl

@[simp] theorem applyCanny_frameHeight (p : OpenCVProcessor) :
    p.applyCanny.frameHeight = p.frameHeight := rfl

@[simp] theorem applyCanny_low (p : OpenCVProcessor) :
    p.applyCanny.cannyLowThreshold = p.cannyLowThreshold := rfl

@[simp] theorem applyCanny_high (p : OpenCVProcessor) :
    p.applyCanny.cannyHighThreshold = p.cannyHighThreshold := rfl

@[simp] theorem applyCanny_inited (p : OpenCVProcessor) :
    p.applyCanny.inited = p.inited := rfl

theorem applyCanny_grayMat (p : OpenCVProcessor) :
    p.applyCanny.grayMat =
      gaussianBlur5x5 p.frameWidth.toNat p.frameHeight.toNat
        (cvtColorRgba2Gray p.rgbaMat) := rfl

theorem applyCanny_edgesMat (p : OpenCVProcessor) :
    p.applyCanny.edgesMat =
      cannyDetect p.frameWidth.toNat p.frameHeight.toNat
        p.cannyLowThreshold p.cannyHighThreshold
        (gaussianBlur5x5 p.frameWidth.toNat p.frameHeight.toNat
          (cvtColorRgba2Gray p.rgbaMat)) := rfl

theorem applyCanny_tempMat (p : OpenCVProcessor) :
    p.applyCanny.tempMat = cvtColorGray2Rgba p.applyCanny.edgesMat := rfl

theorem processFrame_of_uninit (p : OpenCVProcessor) (y : Option (List Nat))
    (s : Nat) (o : Option (List Nat)) (m : Int) (h : p.inited = false) :
    p.processFrame y s o m = (false, p, o) := by
  simp [OpenCVProcessor.processFrame, h]

theorem processFrame_state_scalars (p : OpenCVProcessor) (y : Option (List Nat))
    (s : Nat) (o : Option (List Nat)) (m : Int) :
    (p.processFrame y s o m).2.1.frameWidth = p.frameWidth ∧
    (p.processFrame y s o m).2.1.frameHeight = p.frameHeight ∧
    (p.processFrame y s o m).2.1.cannyLowThreshold = p.cannyLowThreshold ∧
    (p.processFrame y s o m).2.1.cannyHighThreshold = p.cannyHighThreshold ∧
    (p.processFrame y s o m).2.1.inited = p.inited := by
  cases y <;> cases o <;>
    simp only [OpenCVProcessor.processFrame] <;> split_ifs <;> simp

end OpenCVProcessor

/-- C3: for every processor whose `initialized` flag is false, `processFrame`
with any arguments returns a reported failure, leaves the processor exactly as
it was (no conversion runs) and does not write the output buffer. -/
theorem claim_C3 (p : OpenCVProcessor) (y : Option (List Nat)) (s : Nat)
    (o : Option (List Nat)) (m : Int) (h : p.inited = false) :
    p.processFrame y s o m = (false, p, o) :=
  OpenCVProcessor.processFrame_of_uninit p y s o m h

/-- Witness for C3 at a freshly constructed processor. -/
theorem claim_C3_witness :
    OpenCVProcessor.new.inited = false ∧
      OpenCVProcessor.new.processFrame (some [1, 2, 3]) 3 (some [7]) 0 =
        (false, OpenCVProcessor.new, some [7]) :=
  ⟨rfl, claim_C3 OpenCVProcessor.new (some [1, 2, 3]) 3 (some [7]) 0 rfl⟩

/-- C4: `init` with a non-positive dimension fails and leaves the whole state
untouched; `init` with positive dimensions succeeds, stores them and sets the
flag; on a fresh processor `init(0, 10)` fails, the processor stays
uninitialized and a subsequent `processFrame` fails with the state error. -/
theorem claim_C4 (p : OpenCVProcessor) (w h : Int) :
    (w ≤ 0 ∨ h ≤ 0 → p.init w h = (false, p)) ∧
    (0 < w → 0 < h →
      (p.init w h).1 = true ∧ (p.init w h).2.frameWidth = w ∧
        (p.init w h).2.frameHeight = h ∧ (p.init w h).2.inited = true) ∧
    ((OpenCVProcessor.new.init 0 10).1 = false ∧
      (OpenCVProcessor.new.init 0 10).2.inited = false ∧
      ∀ (y : Option (List Nat)) (s : Nat) (o : Option (List Nat)) (m : Int),
        (OpenCVProcessor.new.init 0 10).2.processFrame y s o m =
          (false, (OpenCVProcessor.new.init 0 10).2, o)) := by
  refine ⟨fun hwh => ?_, fun hw hh => ?_, rfl, rfl, fun y s o m => ?_⟩
  · unfold OpenCVProcessor.init
    rw [if_pos hwh]
  · have hn : ¬(w ≤ 0 ∨ h ≤ 0) := by
      push_neg
      exact ⟨hw, hh⟩
    unfold OpenCVProcessor.init
    rw [if_neg hn]
    exact ⟨rfl, rfl, rfl, rfl⟩
  · exact OpenCVProcessor.processFrame_of_uninit _ y s o m rfl

/-- Witness for C4 at concrete dimensions, both rejected and accepted. -/
theorem claim_C4_witness :
    ((0 : Int) ≤ 0 ∨ (10 : Int) ≤ 0) ∧
      OpenCVProcessor.new.init 0 10 = (false, OpenCVProcessor.new) ∧
      (0 : Int) < 3 ∧ (0 : Int) < 2 ∧
      ((OpenCVProcessor.new.init 3 2).1 = true ∧
        (OpenCVProcessor.new.init 3 2).2.frameWidth = 3 ∧
        (OpenCVProcessor.new.init 3 2).2.frameHeight = 2 ∧
        (OpenCVProcessor.new.init 3 2).2.inited = true) :=
  ⟨Or.inl le_rfl, (claim_C4 OpenCVProcessor.new 0 10).1 (Or.inl le_rfl),
    by decide, by decide,
    (claim_C4 OpenCVProcessor.new 3 2).2.1 (by decide) (by decide)⟩

/-- C6: `release` is idempotent, on a not-initialized processor it is a no-op,
and after any `release` the flag is cleared. -/
theorem claim_C6 (p : OpenCVProcessor) :
    p.release.release = p.release ∧ (p.inited = false → p.release = p) ∧
      p.release.inited = false := by
  by_cases h : p.inited = true
  · unfold OpenCVProcessor.release
    simp [h]
  · have h0 : p.inited = false := by
      simpa using h
    unfold OpenCVProcessor.release
    simp [h0]

/-- Witness for C6 at a freshly constructed (never-initialized) processor. -/
theorem claim_C6_witness :
    OpenCVProcessor.new.release.release = OpenCVProcessor.new.release ∧
      (OpenCVProcessor.new.inited = false →
        OpenCVProcessor.new.release = OpenCVProcessor.new) ∧
      OpenCVProcessor.new.release.inited = false :=
  claim_C6 OpenCVProcessor.new

/-- C8: the constructor sets the default thresholds 50.0 and 150.0, and
`setCannyThresholds` stores any given pair verbatim (no validation, no
reordering, independent of the rest of the state). -/
theorem claim_C8 :
    OpenCVProcessor.new.cannyLowThreshold = 50 ∧
    OpenCVProcessor.new.cannyHighThreshold = 150 ∧
    ∀ (p : OpenCVProcessor) (low high : ℚ),
      p.setCannyThresholds low high =
        { p with cannyLowThreshold := low, cannyHighThreshold := high } :=
  ⟨rfl, rfl, fun _ _ _ => rfl⟩

/-- C10: neither `release` nor `init` (accepted or rejected) changes the stored
thresholds, so values set before a release / re-init cycle survive it. -/
theorem claim_C10 (p : OpenCVProcessor) (w h : Int) (low high : ℚ) :
    (p.release.cannyLowThreshold = p.cannyLowThreshold ∧
      p.release.cannyHighThreshold = p.cannyHighThreshold) ∧
    ((p.init w h).2.cannyLowThreshold = p.cannyLowThreshold ∧
      (p.init w h).2.cannyHighThreshold = p.cannyHighThreshold) ∧
    (((p.setCannyThresholds low high).release.init w h).2.cannyLowThreshold = low ∧
      ((p.setCannyThresholds low high).release.init w h).2.cannyHighThreshold = high) := by
  unfold OpenCVProcessor.release OpenCVProcessor.init OpenCVProcessor.setCannyThresholds
  split_ifs <;> simp

/-- Two processors that agree on the five scalar fields produce the same
outcome and output buffer on any `processFrame` call: the buffers populated by
a previous call never influence the result. -/
theorem processFrame_agree (p q : OpenCVProcessor)
    (hw : q.frameWidth = p.frameWidth) (hh : q.frameHeight = p.frameHeight)
    (hl : q.cannyLowThreshold = p.cannyLowThreshold)
    (hhi : q.cannyHighThreshold = p.cannyHighThreshold)
    (hin : q.inited = p.inited)
    (y : Option (List Nat)) (s : Nat) (o : Option (List Nat)) (m : Int) :
    (q.processFrame y s o m).1 = (p.processFrame y s o m).1 ∧
      (q.processFrame y s o m).2.2 = (p.processFrame y s o m).2.2 := by
  by_cases hp : p.inited = false
  · rw [OpenCVProcessor.processFrame_of_uninit p y s o m hp,
      OpenCVProcessor.processFrame_of_uninit q y s o m (hin.trans hp)]
    exact ⟨rfl, rfl⟩
  · have hp' : p.inited = true := by
      simpa using hp
    have hq' : q.inited = true := hin.trans hp'
    cases y with
    | none => simp [OpenCVProcessor.processFrame, hp', hq']
    | some yuv =>
      cases o with
      | none => simp [OpenCVProcessor.processFrame, hp', hq']
      | some out =>
        have hrgba : (q.yuvToRgba yuv).rgbaMat = (p.yuvToRgba yuv).rgbaMat := by
          rw [OpenCVProcessor.yuvToRgba_rgbaMat, OpenCVProcessor.yuvToRgba_rgbaMat,
            hw, hh]
        have hgtemp : (q.yuvToRgba yuv).applyGrayscale.tempMat =
            (p.yuvToRgba yuv).applyGrayscale.tempMat := by
          rw [OpenCVProcessor.applyGrayscale_tempMat,
            OpenCVProcessor.applyGrayscale_tempMat, hrgba]
        have hctemp : (q.yuvToRgba yuv).applyCanny.tempMat =
            (p.yuvToRgba yuv).applyCanny.tempMat := by
          rw [OpenCVProcessor.applyCanny_tempMat, OpenCVProcessor.applyCanny_tempMat,
            OpenCVProcessor.applyCanny_edgesMat, OpenCVProcessor.applyCanny_edgesMat]
          simp [hrgba, hw, hh, hl, hhi]
        constructor <;>
          (simp only [OpenCVProcessor.processFrame, hp', hq'] <;>
            split_ifs <;>
            simp [hrgba, hgtemp, hctemp, hw, hh])

/-- C2: whenever `processFrame` fails, the scalar state (dimensions, thresholds,
flag) is unchanged, and the resulting processor is behaviorally identical to
the original on every subsequent `processFrame` call. -/
theorem claim_C2 (p : OpenCVProcessor) (y : Option (List Nat)) (s : Nat)
    (o : Option (List Nat)) (m : Int)
    (hfail : (p.processFrame y s o m).1 = false) :
    ((p.processFrame y s o m).2.1.frameWidth = p.frameWidth ∧
      (p.processFrame y s o m).2.1.frameHeight = p.frameHeight ∧
      (p.processFrame y s o m).2.1.cannyLowThreshold = p.cannyLowThreshold ∧
      (p.processFrame y s o m).2.1.cannyHighThreshold = p.cannyHighThreshold ∧
      (p.processFrame y s o m).2.1.inited = p.inited) ∧
    ∀ (y2 : Option (List Nat)) (s2 : Nat) (o2 : Option (List Nat)) (m2 : Int),
      ((p.processFrame y s o m).2.1.processFrame y2 s2 o2 m2).1 =
        (p.processFrame y2 s2 o2 m2).1 ∧
      ((p.processFrame y s o m).2.1.processFrame y2 s2 o2 m2).2.2 =
        (p.processFrame y2 s2 o2 m2).2.2 := by
  obtain ⟨h1, h2, h3, h4, h5⟩ := OpenCVProcessor.processFrame_state_scalars p y s o m
  exact ⟨⟨h1, h2, h3, h4, h5⟩, fun y2 s2 o2 m2 =>
    processFrame_agree p ((p.processFrame y s o m).2.1) h1 h2 h3 h4 h5 y2 s2 o2 m2⟩

/-- Witness for C2 at an initialized 2×2 processor and an unknown mode. -/
theorem claim_C2_witness :
    (((OpenCVProcessor.new.init 2 2).2.processFrame (some [1, 2, 3, 4, 5, 6]) 6
        (some (List.replicate 16 9)) 7).1 = false) ∧
      (((OpenCVProcessor.new.init 2 2).2.processFrame (some [1, 2, 3, 4, 5, 6]) 6
          (some (List.replicate 16 9)) 7).2.1.frameWidth =
        (OpenCVProcessor.new.init 2 2).2.frameWidth ∧
        ((OpenCVProcessor.new.init 2 2).2.processFrame (some [1, 2, 3, 4, 5, 6]) 6
            (some (List.replicate 16 9)) 7).2.1.frameHeight =
          (OpenCVProcessor.new.init 2 2).2.frameHeight ∧
        ((OpenCVProcessor.new.init 2 2).2.processFrame (some [1, 2, 3, 4, 5, 6]) 6
            (some (List.replicate 16 9)) 7).2.1.cannyLowThreshold =
          (OpenCVProcessor.new.init 2 2).2.cannyLowThreshold ∧
        ((OpenCVProcessor.new.init 2 2).2.processFrame (some [1, 2, 3, 4, 5, 6]) 6
            (some (List.replicate 16 9)) 7).2.1.cannyHighThreshold =
          (OpenCVProcessor.new.init 2 2).2.cannyHighThreshold ∧
        ((OpenCVProcessor.new.init 2 2).2.processFrame (some [1, 2, 3, 4, 5, 6]) 6
            (some (List.replicate 16 9)) 7).2.1.inited =
          (OpenCVProcessor.new.init 2 2).2.inited) ∧
      ∀ (y2 : Option (List Nat)) (s2 : Nat) (o2 : Option (List Nat)) (m2 : Int),
        (((OpenCVProcessor.new.init 2 2).2.processFrame (some [1, 2, 3, 4, 5, 6]) 6
              (some (List.replicate 16 9)) 7).2.1.processFrame y2 s2 o2 m2).1 =
          ((OpenCVProcessor.new.init 2 2).2.processFrame y2 s2 o2 m2).1 ∧
        (((OpenCVProcessor.new.init 2 2).2.processFrame (some [1, 2, 3, 4, 5, 6]) 6
              (some (List.replicate 16 9)) 7).2.1.processFrame y2 s2 o2 m2).2.2 =
          ((OpenCVProcessor.new.init 2 2).2.processFrame y2 s2 o2 m2).2.2 :=
  ⟨by decide,
    claim_C2 (OpenCVProcessor.new.init 2 2).2 (some [1, 2, 3, 4, 5, 6]) 6
      (some (List.replicate 16 9)) 7 (by decide)⟩

/-- C5: on an initialized processor an unrecognized mode makes `processFrame`
fail; the conversion step has already run (`yuvMat` and `rgbaMat` reflect the
given input through the converter), and no other buffer — the caller's output
included — is modified. -/
theorem claim_C5 (p : OpenCVProcessor) (yuv out : List Nat) (s : Nat) (m : Int)
    (hp : p.inited = true) (h0 : m ≠ 0) (h1 : m ≠ 1) (h2 : m ≠ 2) :
    p.processFrame (some yuv) s (some out) m = (false, p.yuvToRgba yuv, some out) ∧
    (p.yuvToRgba yuv).rgbaMat =
      cvtColorYuv2RgbaNV21 p.frameWidth.toNat p.frameHeight.toNat
        ((List.range (Int.tdiv (p.frameWidth * p.frameHeight * 3) 2).toNat).map
          (fun i => yuv.getD i 0)) ∧
    (p.yuvToRgba yuv).grayMat = p.grayMat ∧
    (p.yuvToRgba yuv).edgesMat = p.edgesMat ∧
    (p.yuvToRgba yuv).tempMat = p.tempMat := by
  refine ⟨?_, rfl, rfl, rfl, rfl⟩
  simp [OpenCVProcessor.processFrame, hp, h0, h1, h2]

/-- Witness for C5 at an initialized 2×2 processor with mode 7. -/
theorem claim_C5_witness :
    (OpenCVProcessor.new.init 2 2).2.inited = true ∧ (7 : Int) ≠ 0 ∧
      (7 : Int) ≠ 1 ∧ (7 : Int) ≠ 2 ∧
      (OpenCVProcessor.new.init 2 2).2.processFrame (some [1, 2, 3, 4, 5, 6]) 6
          (some (List.replicate 16 9)) 7 =
        (false, (OpenCVProcessor.new.init 2 2).2.yuvToRgba [1, 2, 3, 4, 5, 6],
          some (List.replicate 16 9)) :=
  ⟨by decide, by decide, by decide, by decide,
    (claim_C5 (OpenCVProcessor.new.init 2 2).2 [1, 2, 3, 4, 5, 6]
      (List.replicate 16 9) 6 7 (by decide) (by decide) (by decide) (by decide)).1⟩

/-- C9: the result of `processFrame` on an initialized processor depends only
on the first `frameWidth*frameHeight*3/2` input bytes; the `yuvSize` argument
and any further input bytes have no influence. -/
theorem claim_C9 (p : OpenCVProcessor) (y1 y2 : List Nat) (s1 s2 : Nat)
    (o : Option (List Nat)) (m : Int) (hp : p.inited = true)
    (hagree : ∀ i < (Int.tdiv (p.frameWidth * p.frameHeight * 3) 2).toNat,
      y1.getD i 0 = y2.getD i 0) :
    p.processFrame (some y1) s1 o m = p.processFrame (some y2) s2 o m := by
  have hcopy : (List.range (Int.tdiv (p.frameWidth * p.frameHeight * 3) 2).toNat).map
      (fun i => y1.getD i 0) =
      (List.range (Int.tdiv (p.frameWidth * p.frameHeight * 3) 2).toNat).map
        (fun i => y2.getD i 0) :=
    List.map_congr_left (fun i hi => hagree i (List.mem_range.mp hi))
  have hyr : p.yuvToRgba y1 = p.yuvToRgba y2 := by
    simp only [OpenCVProcessor.yuvToRgba]
    rw [hcopy]
  cases o <;> simp [OpenCVProcessor.processFrame, hp, hyr]

/-- Witness for C9: a 2×2 processor, two inputs agreeing on the first 6 bytes
but differing in length, trailing bytes and declared size. -/
theorem claim_C9_witness :
    (OpenCVProcessor.new.init 2 2).2.inited = true ∧
      (∀ i < (Int.tdiv ((OpenCVProcessor.new.init 2 2).2.frameWidth *
          (OpenCVProcessor.new.init 2 2).2.frameHeight * 3) 2).toNat,
        [1, 2, 3, 4, 5, 6].getD i 0 = [1, 2, 3, 4, 5, 6, 70, 80, 90].getD i 0) ∧
      (OpenCVProcessor.new.init 2 2).2.processFrame (some [1, 2, 3, 4, 5, 6]) 6
          (some (List.replicate 16 0)) 1 =
        (OpenCVProcessor.new.init 2 2).2.processFrame
          (some [1, 2, 3, 4, 5, 6, 70, 80, 90]) 999 (some (List.replicate 16 0)) 1 :=
  ⟨by decide, by decide,
    claim_C9 (OpenCVProcessor.new.init 2 2).2 [1, 2, 3, 4, 5, 6]
      [1, 2, 3, 4, 5, 6, 70, 80, 90] 6 999 (some (List.replicate 16 0)) 1
      (by decide) (by decide)⟩

/-- Every pixel of a Canny edge map is binary: background 0 or edge 255. -/
theorem cannyDetect_binary (w h : Nat) (low high : ℚ) (img : List Nat) :
    ∀ v ∈ cannyDetect w h low high img, v = 0 ∨ v = 255 := by
  intro v hv
  simp only [cannyDetect, List.mem_map] at hv
  obtain ⟨i, _, hi⟩ := hv
  split at hi
  · exact Or.inr hi.symm
  · exact Or.inl hi.symm

/-- C7: in edge-detection mode `processFrame` runs exactly the chain
intensity reduction → in-place 5×5 σ=1.5 Gaussian blur → double-threshold
gradient edge extraction with the stored thresholds and aperture 3 → expansion
of the binary map to 4 channels → copy to the output buffer, and the edge map
is binary. -/
theorem claim_C7 (p : OpenCVProcessor) (yuv out : List Nat) (s : Nat)
    (hp : p.inited = true) :
    p.processFrame (some yuv) s (some out) 2 =
      (true,
        { p.yuvToRgba yuv with
            grayMat := gaussianBlur5x5 p.frameWidth.toNat p.frameHeight.toNat
              (cvtColorRgba2Gray (p.yuvToRgba yuv).rgbaMat),
            edgesMat := cannyDetect p.frameWidth.toNat p.frameHeight.toNat
              p.cannyLowThreshold p.cannyHighThreshold
              (gaussianBlur5x5 p.frameWidth.toNat p.frameHeight.toNat
                (cvtColorRgba2Gray (p.yuvToRgba yuv).rgbaMat)),
            tempMat := cvtColorGray2Rgba
              (cannyDetect p.frameWidth.toNat p.frameHeight.toNat
                p.cannyLowThreshold p.cannyHighThreshold
                (gaussianBlur5x5 p.frameWidth.toNat p.frameHeight.toNat
                  (cvtColorRgba2Gray (p.yuvToRgba yuv).rgbaMat))) },
        some (memcpyInto out
          (cvtColorGray2Rgba
            (cannyDetect p.frameWidth.toNat p.frameHeight.toNat
              p.cannyLowThreshold p.cannyHighThreshold
              (gaussianBlur5x5 p.frameWidth.toNat p.frameHeight.toNat
                (cvtColorRgba2Gray (p.yuvToRgba yuv).rgbaMat))))
          (p.frameWidth * p.frameHeight * 4).toNat)) ∧
    ∀ v ∈ cannyDetect p.frameWidth.toNat p.frameHeight.toNat
        p.cannyLowThreshold p.cannyHighThreshold
        (gaussianBlur5x5 p.frameWidth.toNat p.frameHeight.toNat
          (cvtColorRgba2Gray (p.yuvToRgba yuv).rgbaMat)),
      v = 0 ∨ v = 255 := by
  refine ⟨?_, cannyDetect_binary _ _ _ _ _⟩
  simp only [OpenCVProcessor.processFrame, hp]
  norm_num [OpenCVProcessor.applyCanny]

/-- Witness for C7 at an initialized 2×2 processor and a concrete frame. -/
theorem claim_C7_witness :
    (OpenCVProcessor.new.init 2 2).2.inited = true ∧
      ((OpenCVProcessor.new.init 2 2).2.processFrame (some [200, 0, 64, 32, 128, 128]) 6
          (some (List.replicate 16 9)) 2 =
        (true,
          { (OpenCVProcessor.new.init 2 2).2.yuvToRgba [200, 0, 64, 32, 128, 128] with
              grayMat := gaussianBlur5x5 (OpenCVProcessor.new.init 2 2).2.frameWidth.toNat
                (OpenCVProcessor.new.init 2 2).2.frameHeight.toNat
                (cvtColorRgba2Gray
                  (((OpenCVProcessor.new.init 2 2).2.yuvToRgba
                    [200, 0, 64, 32, 128, 128]).rgbaMat)),
              edgesMat := cannyDetect (OpenCVProcessor.new.init 2 2).2.frameWidth.toNat
                (OpenCVProcessor.new.init 2 2).2.frameHeight.toNat
                (OpenCVProcessor.new.init 2 2).2.cannyLowThreshold
                (OpenCVProcessor.new.init 2 2).2.cannyHighThreshold
                (gaussianBlur5x5 (OpenCVProcessor.new.init 2 2).2.frameWidth.toNat
                  (OpenCVProcessor.new.init 2 2).2.frameHeight.toNat
                  (cvtColorRgba2Gray
                    (((OpenCVProcessor.new.init 2 2).2.yuvToRgba
                      [200, 0, 64, 32, 128, 128]).rgbaMat))),
              tempMat := cvtColorGray2Rgba
                (cannyDetect (OpenCVProcessor.new.init 2 2).2.frameWidth.toNat
                  (OpenCVProcessor.new.init 2 2).2.frameHeight.toNat
                  (OpenCVProcessor.new.init 2 2).2.cannyLowThreshold
                  (OpenCVProcessor.new.init 2 2).2.cannyHighThreshold
                  (gaussianBlur5x5 (OpenCVProcessor.new.init 2 2).2.frameWidth.toNat
                    (OpenCVProcessor.new.init 2 2).2.frameHeight.toNat
                    (cvtColorRgba2Gray
                      (((OpenCVProcessor.new.init 2 2).2.yuvToRgba
                        [200, 0, 64, 32, 128, 128]).rgbaMat)))) },
          some (memcpyInto (List.replicate 16 9)
            (cvtColorGray2Rgba
              (cannyDetect (OpenCVProcessor.new.init 2 2).2.frameWidth.toNat
                (OpenCVProcessor.new.init 2 2).2.frameHeight.toNat
                (OpenCVProcessor.new.init 2 2).2.cannyLowThreshold
                (OpenCVProcessor.new.init 2 2).2.cannyHighThreshold
                (gaussianBlur5x5 (OpenCVProcessor.new.init 2 2).2.frameWidth.toNat
                  (OpenCVProcessor.new.init 2 2).2.frameHeight.toNat
                  (cvtColorRgba2Gray
                    (((OpenCVProcessor.new.init 2 2).2.yuvToRgba
                      [200, 0, 64, 32, 128, 128]).rgbaMat)))))
            ((OpenCVProcessor.new.init 2 2).2.frameWidth *
              (OpenCVProcessor.new.init 2 2).2.frameHeight * 4).toNat)) ∧
        ∀ v ∈ cannyDetect (OpenCVProcessor.new.init 2 2).2.frameWidth.toNat
            (OpenCVProcessor.new.init 2 2).2.frameHeight.toNat
            (OpenCVProcessor.new.init 2 2).2.cannyLowThreshold
            (OpenCVProcessor.new.init 2 2).2.cannyHighThreshold
            (gaussianBlur5x5 (OpenCVProcessor.new.init 2 2).2.frameWidth.toNat
              (OpenCVProcessor.new.init 2 2).2.frameHeight.toNat
              (cvtColorRgba2Gray
                (((OpenCVProcessor.new.init 2 2).2.yuvToRgba
                  [200, 0, 64, 32, 128, 128]).rgbaMat))),
          v = 0 ∨ v = 255) :=
  ⟨by decide,
    claim_C7 (OpenCVProcessor.new.init 2 2).2 [200, 0, 64, 32, 128, 128]
      (List.replicate 16 9) 6 (by decide)⟩

/-- Counterexample to C1: an initialized 2×2 processor given an input of length
`width*height*3/2 - 1 = 5` does not fail — `processFrame` returns success, so
the size precondition is not checked by `processFrame` itself. -/
theorem claim_C1_cex :
    (OpenCVProcessor.new.init 2 2).2.inited = true ∧
      [(0 : Nat), 0, 0, 0, 0].length <
        (Int.tdiv ((OpenCVProcessor.new.init 2 2).2.frameWidth *
          (OpenCVProcessor.new.init 2 2).2.frameHeight * 3) 2).toNat ∧
      ((OpenCVProcessor.new.init 2 2).2.processFrame (some [0, 0, 0, 0, 0]) 5
          (some (List.replicate 16 7)) 0).1 = true :=
  ⟨by decide, by decide, by decide⟩

/-- C1 (amended): the input-size precondition is enforced only by the external
JNI entry point: `nativeProcessFrame` fails and leaves the output untouched
whenever the input is shorter than `width*height*3/2`, without invoking the
processor; `processFrame` itself performs no size check and succeeds on an
initialized processor in pass-through mode whatever the input length. -/
theorem claim_C1_amended (p : OpenCVProcessor) (input output : List Nat)
    (w h m : Int) (hsize : (input.length : Int) < Int.tdiv (w * h * 3) 2) :
    nativeProcessFrame (some p) input output w h m = (false, some p, output) ∧
    ∀ (q : OpenCVProcessor) (yuv out2 : List Nat) (sz : Nat),
      q.inited = true → (q.processFrame (some yuv) sz (some out2) 0).1 = true := by
  constructor
  · simp only [nativeProcessFrame]
    rw [if_pos hsize]
  · intro q yuv out2 sz hq
    simp [OpenCVProcessor.processFrame, hq]

/-- Witness for the amended C1 at a 5-byte input on a 2×2 frame. -/
theorem claim_C1_amended_witness :
    (([(0 : Nat), 0, 0, 0, 0].length : Int) < Int.tdiv (2 * 2 * 3) 2) ∧
      (nativeProcessFrame (some (OpenCVProcessor.new.init 2 2).2) [0, 0, 0, 0, 0]
          (List.replicate 16 7) 2 2 0 =
        (false, some (OpenCVProcessor.new.init 2 2).2, List.replicate 16 7) ∧
        ∀ (q : OpenCVProcessor) (yuv out2 : List Nat) (sz : Nat),
          q.inited = true → (q.processFrame (some yuv) sz (some out2) 0).1 = true) :=
  ⟨by decide,
    claim_C1_amended (OpenCVProcessor.new.init 2 2).2 [0, 0, 0, 0, 0]
      (List.replicate 16 7) 2 2 0 (by decide)⟩
